import Mathlib

/-!
Shallow embedding of `src/preprocess.py` (TW industry census extraction).

The embedding models the `Processor` class: zoned-decimal decoding
(`__zd_convertor`), per-year field extraction (`_extract`), data collection
(`collect_data`), filtering (`apply_conditions`), ROC-SIC → ISIC mapping
(`sic_mapping`), plus the guarded accessors (`show_data`, `get_data`,
`output_CSV`).  File reading and the Excel reference table are external
inputs, so they appear as explicit parameters (the list of file texts, the
list of reference-table rows).  Printed messages are returned as values of
type `Msg`; Python exceptions are modelled with `Except PyErr`.
-/

/-- Python exceptions raised by the relevant code paths: `valueError` for a
failed `astype('int64')`, `decodeError` for a zoned-decimal terminal symbol
that is not a key of the zone map (in pandas this also surfaces as a
`ValueError`, from the `DataFrame` constructor; it is kept separate because
it arises from a different line), `keyError` for `rocsic_to_isic['Else']`
(and for indexing an empty series), `attributeError` for attribute access on
`None`, `typeError` for subscripting `None`, `unboundLocal` for using a
variable that no branch assigned. -/
inductive PyErr
  | valueError
  | decodeError
  | keyError
  | attributeError
  | typeError
  | unboundLocal
deriving DecidableEq

/-- One extracted record: the dataframe row with columns
`['scale', 'primary', 'roc_sic', 'asset']` (plus the `'isic'` column added
later by `sic_mapping`, absent until then). `roc_sic` is the column that
`collect_data` assigns to the `primary_short` series of `_extract`. -/
structure Row where
  scale : String
  primary : String
  roc_sic : String
  asset : Int
  isic : Option String := none
deriving DecidableEq

/-- The mutable state of a `Processor` object: constructor arguments plus the
`_extracted` flag and the private `__data` dataframe (`None` before
collection). -/
structure Processor where
  upperlayer_folder : String
  folder : String
  _extracted : Bool
  data : Option (List Row)
deriving DecidableEq

/-- One row of the `ISIC_to_ROCSIC.xlsx` reference sheet: the `ISIC_Rev3`
code and the three year-specific comma-separated ROC-SIC code lists
(`ROCSIC_6`, `ROCSIC_7`, `ROCSIC_8`), already coerced to strings as the code
does with `astype('string')`. -/
structure SicRef where
  isic : String
  rocsic6 : String
  rocsic7 : String
  rocsic8 : String
deriving DecidableEq

/-- Messages printed by the methods. -/
inductive Msg
  | warnNotCollected
  | pleaseSpecifyFolder
  | yearNotFinished
  | startCollection (folder : String)
  | fileFinished
  | collectionCompleted (folder : String)
  | dataDump (rows : Option (List Row))
deriving DecidableEq

/-- Python string slice `s[a:b]` with `0 ≤ a ≤ b` (the only form the code
uses): drop the first `a` characters, keep the next `b - a`. -/
def pySlice (s : String) (a b : Nat) : String :=
  String.mk ((s.data.drop a).take (b - a))

/-- Python string slice `s[a:]`. -/
def pyDrop (s : String) (a : Nat) : String :=
  String.mk (s.data.drop a)

/-- Value of a string of decimal digits. -/
def digitsVal (l : List Char) : Nat :=
  l.foldl (fun a c => 10 * a + (c.toNat - 48)) 0

/-- Model of pandas `.astype('int64')` applied to one cell holding a string
of decimal digits (the only shape the fixed-width numeric fields take):
`some` of its value when the string is nonempty and all digits, `none`
otherwise (pandas raises `ValueError`). -/
def parseInt? (s : String) : Option Nat :=
  if s.data ≠ [] ∧ s.data.all Char.isDigit then some (digitsVal s.data) else none

/-- Python `str.isnumeric()` restricted to the ASCII contents of this data:
nonempty and all decimal digits. -/
def pyIsNumeric (s : String) : Bool :=
  !s.data.isEmpty && s.data.all Char.isDigit

/-- Split a character list on a single-character separator, Python
`str.split(sep)` semantics (`"".split(sep) == [""]`, a trailing separator
yields a trailing empty piece). -/
def splitOnChar (sep : Char) : List Char → List (List Char)
  | [] => [[]]
  | c :: rest =>
    if c = sep then [] :: splitOnChar sep rest
    else
      match splitOnChar sep rest with
      | [] => [[c]]
      | g :: gs => (c :: g) :: gs

/-- Split a character list on the two-character separator `"\r\n"`, Python
`str.split("\r\n")` semantics. -/
def splitCRLF : List Char → List (List Char)
  | [] => [[]]
  | '\r' :: '\n' :: rest => [] :: splitCRLF rest
  | c :: rest =>
    match splitCRLF rest with
    | [] => [[c]]
    | g :: gs => (c :: g) :: gs

/-- Python `text.split("\r\n")` on a string. -/
def pySplitCRLF (s : String) : List String :=
  (splitCRLF s.data).map String.mk

/-- Python `text.split(",")` on a string. -/
def pySplitComma (s : String) : List String :=
  (splitOnChar ',' s.data).map String.mk

/-- The `zd_map` dict of `__zd_convertor`, in source order: terminal symbol
`↦ [sign, value]`. -/
def zdPairs : List (Char × (Int × Nat)) :=
  [('{', (1, 0)), ('}', (-1, 0)),
   ('A', (1, 1)), ('J', (-1, 1)),
   ('B', (1, 2)), ('K', (-1, 2)),
   ('C', (1, 3)), ('L', (-1, 3)),
   ('D', (1, 4)), ('M', (-1, 4)),
   ('E', (1, 5)), ('N', (-1, 5)),
   ('F', (1, 6)), ('O', (-1, 6)),
   ('G', (1, 7)), ('P', (-1, 7)),
   ('H', (1, 8)), ('Q', (-1, 8)),
   ('I', (1, 9)), ('R', (-1, 9))]

/-- Dict lookup in `zd_map`. -/
def zd_map (c : Char) : Option (Int × Nat) :=
  zdPairs.lookup c

/-- The keys of `zd_map`: the recognized terminal-symbol alphabet. -/
def zdKeys : List Char :=
  zdPairs.map Prod.fst

/-- One element's contribution to
`front_digits = series.str.slice(stop=n-1).astype('int64') * 10` (before the
`* 10`): parse the leading slice as an integer, `ValueError` on failure. -/
def frontParse (n : Nat) (s : String) : Except PyErr Nat :=
  match parseInt? (pySlice s 0 (n - 1)) with
  | some v => .ok v
  | none => .error PyErr.valueError

/-- One element's contribution to
`zd_code = series.str.slice(start=n-1)` followed by `.map(zd_map)`: the
sliced code string is a dict key only when it is a single recognized
character; otherwise the mapped value is `NaN` and the subsequent
`pd.DataFrame(...)` construction fails. -/
def codeParse (n : Nat) (s : String) : Except PyErr (Int × Nat) :=
  match (pyDrop s (n - 1)).data with
  | [c] =>
    match zd_map c with
    | some sv => .ok sv
    | none => .error PyErr.decodeError
  | _ => .error PyErr.decodeError

/-- Apply a fallible per-element operation across a whole series; any
element's failure fails the series, as pandas `astype` / the `DataFrame`
constructor do. -/
def seqMap {α : Type} (f : String → Except PyErr α) : List String → Except PyErr (List α)
  | [] => .ok []
  | s :: rest =>
    match f s with
    | .error e => .error e
    | .ok v =>
      match seqMap f rest with
      | .error e => .error e
      | .ok vs => .ok (v :: vs)

/-- `__zd_convertor`: `n = len(series[0])` (indexing an empty series raises
`KeyError`); every element's leading slice `[0:n-1]` is converted with
`astype('int64')`, every element's trailing slice `[n-1:]` is mapped through
`zd_map`, and the result per element is `(front * 10 + value) * sign`. -/
def zd_convertor (batch : List String) : Except PyErr (List Int) :=
  match batch with
  | [] => .error PyErr.keyError
  | s0 :: _ =>
    match seqMap (frontParse s0.data.length) batch with
    | .error e => .error e
    | .ok fronts =>
      match seqMap (codeParse s0.data.length) batch with
      | .error e => .error e
      | .ok codes =>
        .ok ((fronts.zip codes).map
          (fun fc => fc.2.1 * (10 * Int.ofNat fc.1 + Int.ofNat fc.2.2)))

/-- Decoding of one zoned-decimal string split at position `n - 1`. -/
def zd_decode_at (n : Nat) (s : String) : Except PyErr Int :=
  match frontParse n s with
  | .error e => .error e
  | .ok f =>
    match codeParse n s with
    | .error e => .error e
    | .ok sv => .ok (sv.1 * (10 * Int.ofNat f + Int.ofNat sv.2))

/-- The per-string zoned-decimal contract: decode one string, splitting at
its own last character (what `__zd_convertor` does to an element whose
length equals the first element's length, and to a singleton batch). -/
def zd_decode (s : String) : Except PyErr Int :=
  zd_decode_at s.data.length s

/-- `astype('int64')` on one plain-integer cell, as an `Except`. -/
def intParse (s : String) : Except PyErr Int :=
  match parseInt? s with
  | some v => .ok (Int.ofNat v)
  | none => .error PyErr.valueError

/-- Build the rows of `_extract`'s output dataframe from the scale slice
bounds, primary slice bounds and decoded asset series; `primary_short` is
`primary.str.slice(start=0, stop=2)`. -/
def mkRows (comps : List String) (sc : Nat × Nat) (pr : Nat × Nat) (assets : List Int) : List Row :=
  (comps.zip assets).map (fun p =>
    { scale := pySlice p.1 sc.1 sc.2
      primary := pySlice p.1 pr.1 pr.2
      roc_sic := pySlice (pySlice p.1 pr.1 pr.2) 0 2
      asset := p.2 })

/-- `_extract`: dispatch on `self.folder[:2]`; slice scale, primary and
asset per year, decode the asset series (zoned-decimal for years 85 and 95,
`astype('int64')` for year 90).  A folder outside the three years leaves
`scale` etc. unassigned (`UnboundLocalError` at the final `pd.concat`); this
path is unreachable through `collect_data`, which guards the year first. -/
def _extract (folder : String) (comps : List String) : Except PyErr (List Row) :=
  if pySlice folder 0 2 = "85" then
    match zd_convertor (comps.map (fun s => pySlice s 1138 1153)) with
    | .error e => .error e
    | .ok assets => .ok (mkRows comps (7, 8) (13, 17) assets)
  else if pySlice folder 0 2 = "90" then
    match seqMap (fun s => intParse (pySlice s 1068 1083)) comps with
    | .error e => .error e
    | .ok assets => .ok (mkRows comps (11, 12) (13, 17) assets)
  else if pySlice folder 0 2 = "95" then
    match zd_convertor (comps.map (fun s => pySlice s 245 260)) with
    | .error e => .error e
    | .ok assets => .ok (mkRows comps (1, 2) (2, 6) assets)
  else .error PyErr.unboundLocal

/-- `pd.concat([data_out, df])` where `data_out` may be `None`: pandas
silently drops `None` inputs, so the first file's dataframe replaces the
initial `None`. -/
def concatData : Option (List Row) → List Row → Option (List Row)
  | none, df => some df
  | some acc, df => some (acc ++ df)

/-- The file loop of `collect_data`: for each file text, split on `"\r\n"`,
drop the trailing empty element (`companies_raw[:-1]`), extract, and stack
onto the accumulated dataframe. -/
def collectFiles (folder : String) : Option (List Row) → List String → Except PyErr (Option (List Row))
  | acc, [] => .ok acc
  | acc, text :: rest =>
    match _extract folder ((pySplitCRLF text).dropLast) with
    | .error e => .error e
    | .ok df => collectFiles folder (concatData acc df) rest

/-- `collect_data`, with the texts of the folder's extensionless files as an
explicit input.  Guards: empty folder, then unsupported year, each printing
one message and returning with the state untouched.  On success the column
names are assigned (assigning `.columns` on `None` — no files and no prior
data — is an `AttributeError`), `_extracted` is set and the data stored. -/
def collect_data (files : List String) (p : Processor) : Except PyErr (Processor × List Msg) :=
  if p.folder = "" then .ok (p, [Msg.pleaseSpecifyFolder])
  else if pySlice p.folder 0 2 ∉ (["85", "90", "95"] : List String) then
    .ok (p, [Msg.yearNotFinished])
  else
    match collectFiles p.folder p.data files with
    | .error e => .error e
    | .ok none => .error PyErr.attributeError
    | .ok (some rows) =>
      .ok ({ p with _extracted := true, data := some rows },
        [Msg.startCollection p.folder] ++ files.map (fun _ => Msg.fileFinished)
          ++ [Msg.collectionCompleted p.folder])

/-- `apply_conditions`: warn and return when not yet collected; otherwise
keep the rows whose `scale` column differs from `"8"` (the hard-coded
condition), reassigning `self.__data` to the filtered frame. -/
def apply_conditions (p : Processor) : Except PyErr (Processor × List Msg) :=
  if p._extracted = false then .ok (p, [Msg.warnNotCollected])
  else
    match p.data with
    | none => .error PyErr.typeError
    | some rows =>
      .ok ({ p with data := some (rows.filter (fun r => r.scale != "8")) }, [])

/-- The year-keyed reference-table column choice of `sic_mapping`
(`ROCSIC_6` / `ROCSIC_7` / `ROCSIC_8`); `none` models the unbound
`code_using` of an unsupported year. -/
def code_col (yr : String) : Option (SicRef → String) :=
  if yr = "85" then some SicRef.rocsic6
  else if yr = "90" then some SicRef.rocsic7
  else if yr = "95" then some SicRef.rocsic8
  else none

/-- The dict-building double loop of `sic_mapping`: for each reference row
`i`, for each `k` in `code_using[i].split(",")`, left-pad `k` with `"0"`
when it is numeric with value under 10, then assign
`rocsic_to_isic[k] = sic_tb['ISIC_Rev3'][i]`.  The dict is modelled as the
assignment list in program order; lookup takes the latest binding. -/
def buildPairs (tb : List SicRef) (col : SicRef → String) : List (String × String) :=
  tb.foldl (fun acc r =>
    (pySplitComma (col r)).foldl (fun acc2 k =>
      acc2 ++ [(if pyIsNumeric k ∧ digitsVal k.data < 10 then "0" ++ k else k, r.isic)]) acc) []

/-- Python dict lookup over the assignment list: the latest assignment to a
key wins. -/
def dictLookup (pairs : List (String × String)) (k : String) : Option String :=
  pairs.reverse.lookup k

/-- The padding rule of the dict-building loop, as a standalone function:
a purely numeric code with value under 10 gets one `"0"` prefixed; every
other code is kept unchanged. -/
def padCode (k : String) : String :=
  if pyIsNumeric k ∧ digitsVal k.data < 10 then "0" ++ k else k

/-- `sic_mapping`, with the reference-sheet rows as an explicit input.
Warn-and-return when not collected; pick the year column (unsupported year
leaves `code_using` unbound); build the dict; then
`self.__data['isic'] = self.__data['roc_sic'].map(rocsic_to_isic)`
`.fillna(rocsic_to_isic['Else'])` — subscripting a `None` dataframe is a
`TypeError`, and `rocsic_to_isic['Else']` is evaluated unconditionally, a
`KeyError` when no `"Else"` key was built. -/
def sic_mapping (tb : List SicRef) (p : Processor) : Except PyErr (Processor × List Msg) :=
  if p._extracted = false then .ok (p, [Msg.warnNotCollected])
  else
    match code_col (pySlice p.folder 0 2) with
    | none => .error PyErr.unboundLocal
    | some col =>
      let pairs := buildPairs tb col
      match p.data with
      | none => .error PyErr.typeError
      | some rows =>
        match dictLookup pairs "Else" with
        | none => .error PyErr.keyError
        | some e =>
          .ok ({ p with data := some (rows.map (fun r =>
              { r with isic := some ((dictLookup pairs r.roc_sic).getD e) })) }, [])

/-- `show_data`: warn and return when not collected, otherwise print the
dataframe.  It never modifies the state. -/
def show_data (p : Processor) : List Msg :=
  if p._extracted = false then [Msg.warnNotCollected] else [Msg.dataDump p.data]

/-- `get_data`: print the warning when not collected, then (in either case)
return `self.__data`. -/
def get_data (p : Processor) : Option (List Row) × List Msg :=
  (p.data, if p._extracted = false then [Msg.warnNotCollected] else [])

/-- `output_CSV`: print the warning when not collected — with no early
`return` — and then call `self.__data.to_csv(...)` unconditionally: an
`AttributeError` on `None`, otherwise the rows that get written out. -/
def output_CSV (p : Processor) : List Msg × Except PyErr (List Row) :=
  (if p._extracted = false then [Msg.warnNotCollected] else [],
   match p.data with
   | none => .error PyErr.attributeError
   | some rows => .ok rows)

deriving instance DecidableEq for Except

/-- Per-claim concrete artifacts: a year-95 record of length 260 with scale
`"1"` at offset 1, primary code `"0512"` at offsets 2–5 and the
zoned-decimal asset field `"00000000000788}"` (= −7880) at offsets 245–259. -/
def c1Record : String :=
  String.mk ("X1".data ++ "0512".data ++ List.replicate 239 '0' ++ "00000000000788\x7d".data)

/-- The raw file text holding `c1Record`: one record plus the final
Windows-style line terminator. -/
def c1File : String := c1Record ++ "\r\n"

/-- A freshly constructed processor pointed at a year-95 folder. -/
def c1Proc : Processor := ⟨"up", "95f", false, none⟩

/-- The processor state after collecting `c1File`. -/
def c1ProcCollected : Processor :=
  ⟨"up", "95f", true, some [⟨"1", "0512", "05", -7880, none⟩]⟩

/-- A reference table containing the row's full 4-character primary code
`"0512"` and a default row. -/
def c1Tb : List SicRef :=
  [⟨"X", "0512", "0512", "0512"⟩, ⟨"E", "Else", "Else", "Else"⟩]

/-- A reference table whose code cell `"5"` is stored padded as `"05"`,
plus a default row. -/
def c1TbShort : List SicRef :=
  [⟨"X", "5", "5", "5"⟩, ⟨"E", "Else", "Else", "Else"⟩]

/-- Year-85 record: 1138 filler characters then the asset field
`"00000000000788D"` (= 7884). -/
def c2Rec85 : String := String.mk (List.replicate 1138 '0' ++ "00000000000788D".data)

/-- Year-90 record: 1068 filler characters then the plain-integer asset
field `"000000000001234"`. -/
def c2Rec90 : String := String.mk (List.replicate 1068 '0' ++ "000000000001234".data)

/-- Year-95 record, same layout as `c1Record`. -/
def c2Rec95 : String :=
  String.mk ("X1".data ++ "0512".data ++ List.replicate 239 '0' ++ "00000000000788\x7d".data)

/-- A reference table with no `"Else"` row whose only code cell `"5"` is
stored padded as `"05"`. -/
def c6Tb : List SicRef := [⟨"X", "5", "5", "5"⟩]

/-- A collected processor whose single row carries `roc_sic = "05"`,
a code present in `c6Tb`'s built table. -/
def c6Proc : Processor := ⟨"up", "95f", true, some [⟨"1", "0512", "05", -7880, none⟩]⟩

/-- A fresh processor with an unsupported folder year. -/
def c7Proc : Processor := ⟨"", "xx", false, none⟩

/-- A collected processor with one scale-"8" row and one scale-"3" row. -/
def c8Proc : Processor :=
  ⟨"u", "85x", true, some [⟨"8", "0101", "01", 5, none⟩, ⟨"3", "0202", "02", 7, none⟩]⟩

/-- A processor whose `_extracted` flag is false while `__data` holds rows
(the flag and the data are separate pieces of state). -/
def c10Proc : Processor := ⟨"u", "85x", false, some [⟨"3", "0202", "02", 7, none⟩]⟩

theorem str_length (s : String) : s.length = s.data.length := rfl

theorem take_len_append {α : Type} (l₁ l₂ : List α) : (l₁ ++ l₂).take l₁.length = l₁ := by
  induction l₁ with
  | nil => simp
  | cons a t ih => simp [ih]

theorem drop_len_append {α : Type} (l₁ l₂ : List α) : (l₁ ++ l₂).drop l₁.length = l₂ := by
  induction l₁ with
  | nil => simp
  | cons a t ih => simp [ih]

theorem lookup_isSome_iff {β : Type} (l : List (Char × β)) (c : Char) :
    (l.lookup c).isSome = true ↔ c ∈ l.map Prod.fst := by
  induction l with
  | nil => simp [List.lookup]
  | cons hd tl ih =>
    obtain ⟨k, v⟩ := hd
    by_cases h : c = k
    · subst h
      simp [List.lookup]
    · have hbeq : (c == k) = false := by simp [h]
      simp only [List.lookup, hbeq, List.map_cons, List.mem_cons]
      rw [ih]
      simp [h]

theorem zd_map_isSome_iff (c : Char) : (zd_map c).isSome = true ↔ c ∈ zdKeys := by
  rw [zd_map, zdKeys]
  exact lookup_isSome_iff zdPairs c

/-- Shape of the per-string decoder on a digit string followed by one more
character: the front slice is exactly the digits and the code slice exactly
the final character, so the result is governed by `zd_map` on that
character. -/
theorem zd_decode_append (ds : List Char) (c : Char)
    (hne : ds ≠ []) (hdig : ∀ x ∈ ds, x.isDigit) :
    zd_decode (String.mk (ds ++ [c])) =
      match zd_map c with
      | some sv => .ok (sv.1 * (10 * Int.ofNat (digitsVal ds) + Int.ofNat sv.2))
      | none => .error PyErr.decodeError := by
  have hlen : (String.mk (ds ++ [c])).data.length = ds.length + 1 := by simp
  rw [zd_decode, hlen]
  have hfront : pySlice (String.mk (ds ++ [c])) 0 (ds.length + 1 - 1) = String.mk ds := by
    rw [pySlice]
    simp [take_len_append]
  have hcode : (pyDrop (String.mk (ds ++ [c])) (ds.length + 1 - 1)).data = [c] := by
    rw [pyDrop]
    simp [drop_len_append]
  have hparse : parseInt? (String.mk ds) = some (digitsVal ds) := by
    rw [parseInt?]
    rw [if_pos]
    exact ⟨hne, List.all_eq_true.mpr (fun x hx => hdig x hx)⟩
  rw [zd_decode_at, frontParse, hfront, hparse]
  rw [codeParse, hcode]
  cases hm : zd_map c <;> simp [hm]

/-- C3: for every string of decimal digits (at least one) terminated by a
recognized sign symbol, the zoned-decimal decoder returns
`sign * (10 * value-of-leading-digits + decoded-final-digit)`. -/
theorem claim3_decoder_formula :
    ∀ (ds : List Char) (c : Char) (sign : Int) (v : Nat),
      ds ≠ [] → (∀ x ∈ ds, x.isDigit) → zd_map c = some (sign, v) →
      zd_decode (String.mk (ds ++ [c])) =
        .ok (sign * (10 * Int.ofNat (digitsVal ds) + Int.ofNat v)) := by
  intro ds c sign v hne hdig hmap
  rw [zd_decode_append ds c hne hdig, hmap]

/-- C3 witness: `"788D"` decodes to 7884, `"788}"` to −7880, and the
all-leading-zero negative value `"000}"` to 0. -/
theorem claim3_witness :
    zd_decode "788D" = .ok 7884
    ∧ zd_decode "788\x7d" = .ok (-7880)
    ∧ zd_decode "000\x7d" = .ok 0 := by
  refine ⟨?_, ?_, ?_⟩
  · have h := claim3_decoder_formula ['7', '8', '8'] 'D' 1 4 (by decide) (by decide) (by decide)
    exact h.trans (by decide)
  · have h := claim3_decoder_formula ['7', '8', '8'] '\x7d' (-1) 0 (by decide) (by decide) (by decide)
    exact h.trans (by decide)
  · have h := claim3_decoder_formula ['0', '0', '0'] '\x7d' (-1) 0 (by decide) (by decide) (by decide)
    exact h.trans (by decide)

/-- C4 counterexample: the recognized terminal-symbol alphabet of the
decoder's zone map consists of 20 distinct symbols, not 18. -/
theorem claim4_counterexample :
    zdKeys.Nodup ∧ zdKeys.length = 20 ∧ ¬zdKeys.length = 18 := by decide

/-- C4 (amended): the alphabet has exactly 20 distinct symbols — 10 with
positive sign encoding final digits 0–9 and 10 with negative sign encoding
final digits 0–9 — and on a string of decimal digits (at least one) followed
by a terminal character, decoding fails with the decode error exactly when
that terminal character is outside the alphabet. -/
theorem claim4_alphabet :
    ∀ (ds : List Char) (c : Char),
      ds ≠ [] → (∀ x ∈ ds, x.isDigit) →
      ((zd_decode (String.mk (ds ++ [c])) = .error PyErr.decodeError ↔ c ∉ zdKeys)
       ∧ zdKeys.Nodup ∧ zdKeys.length = 20
       ∧ (zdKeys.filter (fun ch => (zd_map ch).any (fun sv => sv.1 == 1))).length = 10
       ∧ (zdKeys.filter (fun ch => (zd_map ch).any (fun sv => sv.1 == -1))).length = 10
       ∧ (∀ v ∈ List.range 10,
            (∃ ch ∈ zdKeys, zd_map ch = some (1, v)) ∧ (∃ ch ∈ zdKeys, zd_map ch = some (-1, v)))) := by
  intro ds c hne hdig
  refine ⟨?_, by decide, by decide, by decide, by decide, by decide⟩
  rw [zd_decode_append ds c hne hdig]
  rw [← zd_map_isSome_iff]
  cases hm : zd_map c <;> simp [hm]

/-- C4 witness: `'Z'` is outside the alphabet, so `"1Z"` fails with the
decode error; and the alphabet counts 20 symbols. -/
theorem claim4_witness :
    zd_decode "1Z" = .error PyErr.decodeError ∧ zdKeys.length = 20 := by
  have h := claim4_alphabet ['1'] 'Z' (by decide) (by decide)
  exact ⟨h.1.mpr (by decide), h.2.2.1⟩

theorem seqMap_ok_iff {α : Type} (f : String → Except PyErr α) :
    ∀ (l : List String) (out : List α),
      seqMap f l = .ok out ↔ List.Forall₂ (fun s v => f s = .ok v) l out := by
  intro l
  induction l with
  | nil =>
    intro out
    constructor
    · intro h
      cases out with
      | nil => exact List.Forall₂.nil
      | cons b bs => simp [seqMap] at h
    · intro h
      cases h
      rfl
  | cons s rest ih =>
    intro out
    constructor
    · intro h
      rw [seqMap] at h
      cases hf : f s with
      | error e => rw [hf] at h; cases h
      | ok v =>
        rw [hf] at h
        cases hr : seqMap f rest with
        | error e => rw [hr] at h; cases h
        | ok vs =>
          rw [hr] at h
          cases h
          exact List.Forall₂.cons hf ((ih vs).mp hr)
    · intro h
      cases h with
      | cons h1 hrest =>
        rw [seqMap, h1, (ih _).mpr hrest]

theorem forall2_zip_decode (n : Nat) :
    ∀ (l : List String) (fronts : List Nat) (codes : List (Int × Nat)),
      List.Forall₂ (fun s f => frontParse n s = .ok f) l fronts →
      List.Forall₂ (fun s c => codeParse n s = .ok c) l codes →
      List.Forall₂ (fun s v => zd_decode_at n s = .ok v) l
        ((fronts.zip codes).map (fun fc => fc.2.1 * (10 * Int.ofNat fc.1 + Int.ofNat fc.2.2))) := by
  intro l
  induction l with
  | nil =>
    intro fronts codes hf hc
    cases hf
    cases hc
    exact List.Forall₂.nil
  | cons s rest ih =>
    intro fronts codes hf hc
    cases hf with
    | cons hf1 hfr =>
      cases hc with
      | cons hc1 hcr =>
        simp only [List.zip_cons_cons, List.map_cons]
        exact List.Forall₂.cons (by rw [zd_decode_at, hf1, hc1]) (ih _ _ hfr hcr)

theorem decode_forall2_split (n : Nat) :
    ∀ (l : List String) (vals : List Int),
      List.Forall₂ (fun s v => zd_decode_at n s = .ok v) l vals →
      ∃ fronts codes,
        List.Forall₂ (fun s f => frontParse n s = .ok f) l fronts
        ∧ List.Forall₂ (fun s c => codeParse n s = .ok c) l codes
        ∧ vals = (fronts.zip codes).map (fun fc => fc.2.1 * (10 * Int.ofNat fc.1 + Int.ofNat fc.2.2)) := by
  intro l
  induction l with
  | nil =>
    intro vals h
    cases h
    exact ⟨[], [], List.Forall₂.nil, List.Forall₂.nil, rfl⟩
  | cons s rest ih =>
    intro vals h
    cases h with
    | cons h1 hr =>
      obtain ⟨fronts, codes, hf, hc, hv⟩ := ih _ hr
      rw [zd_decode_at] at h1
      cases hfp : frontParse n s with
      | error e => rw [hfp] at h1; cases h1
      | ok f =>
        rw [hfp] at h1
        cases hcp : codeParse n s with
        | error e => rw [hcp] at h1; cases h1
        | ok sv =>
          rw [hcp] at h1
          cases h1
          exact ⟨f :: fronts, sv :: codes, List.Forall₂.cons hfp hf,
            List.Forall₂.cons hcp hc, by simp [hv]⟩

theorem zd_convertor_ok_iff (s0 : String) (rest : List String) (vals : List Int) :
    zd_convertor (s0 :: rest) = .ok vals ↔
      List.Forall₂ (fun s v => zd_decode_at s0.data.length s = .ok v) (s0 :: rest) vals := by
  constructor
  · intro h
    rw [zd_convertor] at h
    cases hf : seqMap (frontParse s0.data.length) (s0 :: rest) with
    | error e => rw [hf] at h; cases h
    | ok fronts =>
      rw [hf] at h
      cases hc : seqMap (codeParse s0.data.length) (s0 :: rest) with
      | error e => rw [hc] at h; cases h
      | ok codes =>
        rw [hc] at h
        cases h
        exact forall2_zip_decode _ _ _ _ ((seqMap_ok_iff _ _ _).mp hf) ((seqMap_ok_iff _ _ _).mp hc)
  · intro h
    obtain ⟨fronts, codes, hf, hc, hv⟩ := decode_forall2_split _ _ _ h
    rw [zd_convertor, (seqMap_ok_iff _ _ _).mpr hf, (seqMap_ok_iff _ _ _).mpr hc, hv]

theorem forall2_decode_len (n : Nat) :
    ∀ (l : List String) (vals : List Int), (∀ s ∈ l, s.data.length = n) →
      (List.Forall₂ (fun s v => zd_decode_at n s = .ok v) l vals ↔
       List.Forall₂ (fun s v => zd_decode s = .ok v) l vals) := by
  intro l
  induction l with
  | nil =>
    intro vals _
    constructor <;> (intro h; cases h; exact List.Forall₂.nil)
  | cons s rest ih =>
    intro vals hlen
    have hs : s.data.length = n := hlen s (by simp)
    have hr : ∀ x ∈ rest, x.data.length = n := fun x hx => hlen x (by simp [hx])
    constructor
    · intro h
      cases h with
      | cons h1 h2 =>
        exact List.Forall₂.cons (by rw [zd_decode, hs]; exact h1) ((ih _ hr).mp h2)
    · intro h
      cases h with
      | cons h1 h2 =>
        refine List.Forall₂.cons ?_ ((ih _ hr).mpr h2)
        rw [zd_decode, hs] at h1
        exact h1

/-- C9: the batch decoder splits every element at `len(first) - 1`.  On a
non-empty batch whose elements all share the first element's length it
succeeds with exactly the values the per-string contract gives each element;
an element of a different length is split at the first element's position
rather than at its own terminal character — concretely, `"12C"` decodes to
123 on its own, yet the batch `["788D", "12C"]` fails because `"12C"` is
split at position 3. -/
theorem claim9_split_position :
    (∀ (s0 : String) (rest : List String) (vals : List Int),
        (∀ s ∈ s0 :: rest, s.length = s0.length) →
        (zd_convertor (s0 :: rest) = .ok vals ↔ seqMap zd_decode (s0 :: rest) = .ok vals))
    ∧ zd_convertor ["788D", "12C"] = .error PyErr.valueError
    ∧ zd_decode "12C" = .ok 123
    ∧ ¬("12C" : String).length = ("788D" : String).length := by
  refine ⟨?_, by decide, by decide, by decide⟩
  intro s0 rest vals hlen
  have hlen' : ∀ s ∈ s0 :: rest, s.data.length = s0.data.length := by
    intro s hs
    rw [← str_length, ← str_length]
    exact hlen s hs
  rw [zd_convertor_ok_iff, seqMap_ok_iff, forall2_decode_len _ _ _ hlen']

/-- C9 witness: a uniform-length batch decodes elementwise. -/
theorem claim9_witness :
    zd_convertor ["788D", "231A"] = .ok [7884, 2311] := by
  have h := (claim9_split_position.1 "788D" ["231A"] [7884, 2311] (by decide)).mpr
  exact h (by decide)

theorem zd_convertor_singleton (t : String) :
    zd_convertor [t] = Except.map (fun v => [v]) (zd_decode t) := by
  rw [zd_convertor, zd_decode, zd_decode_at]
  cases hf : frontParse t.data.length t with
  | error e => simp only [seqMap, hf, Except.map]
  | ok f =>
    cases hc : codeParse t.data.length t with
    | error e => simp only [seqMap, hf, hc, Except.map]
    | ok sv => simp only [seqMap, hf, hc, Except.map, List.zip_cons_cons, List.zip_nil_right,
        List.map_cons, List.map_nil]

/-- C2: for each of the three supported year prefixes, `_extract` slices
scale, primary and asset at the documented offsets — year 85: (7,1),
(13,4), (1138,15) zoned-decimal; year 90: (11,1), (13,4), (1068,15) plain
integer; year 95: (1,1), (2,4), (245,15) zoned-decimal — and `roc_sic`
(primary_code_short) is always the leading two characters of primary. -/
theorem claim2_offsets :
    ∀ (folder s : String),
      (pySlice folder 0 2 = "85" →
        _extract folder [s] = Except.map (fun a =>
          [⟨pySlice s 7 8, pySlice s 13 17, pySlice (pySlice s 13 17) 0 2, a, none⟩])
          (zd_decode (pySlice s 1138 1153)))
      ∧ (pySlice folder 0 2 = "90" →
        _extract folder [s] = Except.map (fun a =>
          [⟨pySlice s 11 12, pySlice s 13 17, pySlice (pySlice s 13 17) 0 2, a, none⟩])
          (intParse (pySlice s 1068 1083)))
      ∧ (pySlice folder 0 2 = "95" →
        _extract folder [s] = Except.map (fun a =>
          [⟨pySlice s 1 2, pySlice s 2 6, pySlice (pySlice s 2 6) 0 2, a, none⟩])
          (zd_decode (pySlice s 245 260))) := by
  intro folder s
  refine ⟨fun h => ?_, fun h => ?_, fun h => ?_⟩
  · rw [_extract, if_pos h]
    rw [show [s].map (fun x => pySlice x 1138 1153) = [pySlice s 1138 1153] from rfl]
    rw [zd_convertor_singleton]
    cases hz : zd_decode (pySlice s 1138 1153) <;> simp [hz, Except.map, mkRows]
  · rw [_extract, if_neg (by rw [h]; decide), if_pos h]
    cases hz : intParse (pySlice s 1068 1083) <;> simp [seqMap, hz, Except.map, mkRows]
  · rw [_extract, if_neg (by rw [h]; decide), if_neg (by rw [h]; decide), if_pos h]
    rw [show [s].map (fun x => pySlice x 245 260) = [pySlice s 245 260] from rfl]
    rw [zd_convertor_singleton]
    cases hz : zd_decode (pySlice s 245 260) <;> simp [hz, Except.map, mkRows]

set_option maxRecDepth 10000 in
/-- C2 witness: concrete records for the three years extract the documented
fields and decoded assets. -/
theorem claim2_witness :
    _extract "85a" [c2Rec85] = .ok [⟨"0", "0000", "00", 7884, none⟩]
    ∧ _extract "90b" [c2Rec90] = .ok [⟨"0", "0000", "00", 1234, none⟩]
    ∧ _extract "95c" [c2Rec95] = .ok [⟨"1", "0512", "05", -7880, none⟩] := by
  refine ⟨?_, ?_, ?_⟩
  · exact ((claim2_offsets "85a" c2Rec85).1 (by decide)).trans (by decide)
  · exact ((claim2_offsets "90b" c2Rec90).2.1 (by decide)).trans (by decide)
  · exact ((claim2_offsets "95c" c2Rec95).2.2 (by decide)).trans (by decide)

set_option maxRecDepth 10000 in
/-- C1 counterexample: after collecting a year-95 record whose full primary
code is `"0512"`, mapping against a table that contains `"0512"` (value
`"X"`) and a default row (`"Else"` ↦ `"E"`) assigns the row the default
`"E"`, even though the full code is present in the table — the lookup key
is the 2-character `roc_sic`, not the full primary code. -/
theorem claim1_counterexample :
    collect_data [c1File] c1Proc =
      .ok (c1ProcCollected,
        [Msg.startCollection "95f", Msg.fileFinished, Msg.collectionCompleted "95f"])
    ∧ sic_mapping c1Tb c1ProcCollected =
        .ok (⟨"up", "95f", true, some [⟨"1", "0512", "05", -7880, some "E"⟩]⟩, [])
    ∧ dictLookup (buildPairs c1Tb SicRef.rocsic8) "0512" = some "X"
    ∧ dictLookup (buildPairs c1Tb SicRef.rocsic8) "Else" = some "E"
    ∧ ¬("E" : String) = "X" := by
  refine ⟨by decide, by decide, by decide, by decide, by decide⟩

/-- C1 (amended): extraction stores the leading two characters of the
primary code in the `roc_sic` column, and `sic_mapping` looks each row up by
that 2-character short code, assigning the default entry's classification
exactly when the short code is absent from the table. -/
theorem claim1_lookup_uses_short_code :
    (∀ (folder : String) (comps : List String) (rows : List Row),
        _extract folder comps = .ok rows →
        ∀ r ∈ rows, r.roc_sic = pySlice r.primary 0 2 ∧ r.isic = none)
    ∧ (∀ (tb : List SicRef) (p : Processor) (rows : List Row) (col : SicRef → String) (e : String),
        p._extracted = true → p.data = some rows →
        code_col (pySlice p.folder 0 2) = some col →
        dictLookup (buildPairs tb col) "Else" = some e →
        sic_mapping tb p =
          .ok ({ p with data := some (rows.map (fun r =>
              { r with isic := some ((dictLookup (buildPairs tb col) r.roc_sic).getD e) })) }, [])) := by
  constructor
  · intro folder comps rows h r hr
    rw [_extract] at h
    split at h
    · cases hz : zd_convertor (comps.map (fun s => pySlice s 1138 1153)) with
      | error e => rw [hz] at h; cases h
      | ok assets =>
        rw [hz] at h
        cases h
        simp only [mkRows, List.mem_map] at hr
        obtain ⟨pair, _, rfl⟩ := hr
        exact ⟨rfl, rfl⟩
    · split at h
      · cases hz : seqMap (fun s => intParse (pySlice s 1068 1083)) comps with
        | error e => rw [hz] at h; cases h
        | ok assets =>
          rw [hz] at h
          cases h
          simp only [mkRows, List.mem_map] at hr
          obtain ⟨pair, _, rfl⟩ := hr
          exact ⟨rfl, rfl⟩
      · split at h
        · cases hz : zd_convertor (comps.map (fun s => pySlice s 245 260)) with
          | error e => rw [hz] at h; cases h
          | ok assets =>
            rw [hz] at h
            cases h
            simp only [mkRows, List.mem_map] at hr
            obtain ⟨pair, _, rfl⟩ := hr
            exact ⟨rfl, rfl⟩
        · cases h
  · intro tb p rows col e hext hdata hcol helse
    rw [sic_mapping, hext, if_neg (by decide), hcol, hdata]
    simp [helse]

/-- C1 witness: with a collected row carrying `roc_sic = "05"` and a table
whose cell `"5"` is stored padded as `"05"` (value `"X"`), the mapping
assigns `"X"` through the short-code lookup. -/
theorem claim1_witness :
    sic_mapping c1TbShort c1ProcCollected =
      .ok (⟨"up", "95f", true, some [⟨"1", "0512", "05", -7880, some "X"⟩]⟩, []) := by
  have h := claim1_lookup_uses_short_code.2 c1TbShort c1ProcCollected
    [⟨"1", "0512", "05", -7880, none⟩] SicRef.rocsic8 "E" rfl rfl rfl (by decide)
  exact h.trans (by decide)

/-- C5: the dict-building loop maps every comma-split code through the
padding rule — a purely numeric code with value under 10 gets one `"0"`
prefixed, every other code is inserted unchanged — so the code `"5"` is
stored under the key `"05"` and is not stored under `"5"`. -/
theorem claim5_padding :
    (∀ (tb : List SicRef) (col : SicRef → String),
        buildPairs tb col =
          tb.flatMap (fun r => (pySplitComma (col r)).map (fun k => (padCode k, r.isic))))
    ∧ (∀ k : String, pyIsNumeric k = true → digitsVal k.data < 10 → padCode k = "0" ++ k)
    ∧ (∀ k : String, ¬(pyIsNumeric k = true ∧ digitsVal k.data < 10) → padCode k = k)
    ∧ dictLookup (buildPairs [⟨"C05", "5", "5", "5"⟩] SicRef.rocsic6) "05" = some "C05"
    ∧ dictLookup (buildPairs [⟨"C05", "5", "5", "5"⟩] SicRef.rocsic6) "5" = none := by
  refine ⟨?_, ?_, ?_, by decide, by decide⟩
  · intro tb col
    have inner : ∀ (g : String → String × String) (ks : List String) (acc : List (String × String)),
        ks.foldl (fun a k => a ++ [g k]) acc = acc ++ ks.map g := by
      intro g ks
      induction ks with
      | nil => intro acc; simp
      | cons k t ih => intro acc; simp [ih]
    have outer : ∀ (acc : List (String × String)),
        tb.foldl (fun acc r =>
          (pySplitComma (col r)).foldl (fun acc2 k =>
            acc2 ++ [(if pyIsNumeric k ∧ digitsVal k.data < 10 then "0" ++ k else k, r.isic)]) acc) acc
        = acc ++ tb.flatMap (fun r => (pySplitComma (col r)).map (fun k => (padCode k, r.isic))) := by
      induction tb with
      | nil => intro acc; simp
      | cons r t ih =>
        intro acc
        rw [List.foldl_cons, ih, List.flatMap_cons]
        rw [inner (fun k => (if pyIsNumeric k ∧ digitsVal k.data < 10 then "0" ++ k else k, r.isic))
            (pySplitComma (col r)) acc]
        simp [padCode, List.append_assoc]
    rw [buildPairs, outer []]
    simp
  · intro k h1 h2
    rw [padCode, if_pos ⟨h1, h2⟩]
  · intro k h
    rw [padCode, if_neg h]

/-- C5 witness: the padding rule at work — `"5"` is padded to `"05"`, while
`"12"` (numeric but not under 10) stays unchanged. -/
theorem claim5_witness : padCode "5" = "05" ∧ padCode "12" = "12" := by
  refine ⟨?_, ?_⟩
  · exact (claim5_padding.2.1 "5" (by decide) (by decide)).trans (by decide)
  · exact claim5_padding.2.2.1 "12" (by decide)

/-- C6 counterexample: with a reference table lacking an `"Else"` row, a
collected row whose `roc_sic = "05"` IS found in the built table (no lookup
miss occurs), yet `sic_mapping` still fails with the missing-default
`KeyError`, because `rocsic_to_isic['Else']` is evaluated unconditionally. -/
theorem claim6_counterexample :
    dictLookup (buildPairs c6Tb SicRef.rocsic8) "05" = some "X"
    ∧ (⟨"1", "0512", "05", -7880, none⟩ : Row).roc_sic = "05"
    ∧ sic_mapping c6Tb c6Proc = .error PyErr.keyError := by
  refine ⟨by decide, by decide, by decide⟩

/-- C6 (amended): once collection is done (data present, supported year),
classification mapping fails with the missing-default error exactly when the
built table has no `"Else"` key — whether or not any lookup miss occurs. -/
theorem claim6_else_required :
    ∀ (tb : List SicRef) (p : Processor) (rows : List Row) (col : SicRef → String),
      p._extracted = true → p.data = some rows →
      code_col (pySlice p.folder 0 2) = some col →
      (sic_mapping tb p = .error PyErr.keyError ↔
        dictLookup (buildPairs tb col) "Else" = none) := by
  intro tb p rows col hext hdata hcol
  rw [sic_mapping, hext, if_neg (by decide), hcol, hdata]
  cases helse : dictLookup (buildPairs tb col) "Else" <;> simp [helse]

/-- C6 witness: the amended equivalence applied to the concrete no-default
table. -/
theorem claim6_witness : sic_mapping c6Tb c6Proc = .error PyErr.keyError := by
  have h := claim6_else_required c6Tb c6Proc [⟨"1", "0512", "05", -7880, none⟩]
    SicRef.rocsic8 rfl rfl rfl
  exact h.mpr (by decide)

/-- C7: a guarded operation invoked outside its valid state — `collect_data`
with an unsupported year prefix, or `apply_conditions` / `sic_mapping` /
`show_data` / `get_data` before collection — prints one explanatory message
and returns without raising, leaving the `_extracted` flag and the stored
rows unchanged; `get_data` then returns no data. -/
theorem claim7_guards :
    ∀ (p : Processor) (files : List String) (tb : List SicRef),
      (pySlice p.folder 0 2 ∉ (["85", "90", "95"] : List String) →
        ∃ m, collect_data files p = .ok (p, [m]))
      ∧ (p._extracted = false → p.data = none →
          apply_conditions p = .ok (p, [Msg.warnNotCollected])
          ∧ sic_mapping tb p = .ok (p, [Msg.warnNotCollected])
          ∧ show_data p = [Msg.warnNotCollected]
          ∧ get_data p = (none, [Msg.warnNotCollected])) := by
  intro p files tb
  constructor
  · intro hyr
    by_cases hf : p.folder = ""
    · exact ⟨Msg.pleaseSpecifyFolder, by rw [collect_data, if_pos hf]⟩
    · exact ⟨Msg.yearNotFinished, by rw [collect_data, if_neg hf, if_pos hyr]⟩
  · intro hext hdata
    refine ⟨?_, ?_, ?_, ?_⟩
    · rw [apply_conditions, if_pos hext]
    · rw [sic_mapping, if_pos hext]
    · rw [show_data, if_pos hext]
    · rw [get_data, hdata, if_pos hext]

/-- C7 witness: a fresh processor with folder `"xx"` — every guarded
operation returns the message and leaves the state untouched. -/
theorem claim7_witness :
    collect_data [] c7Proc = .ok (c7Proc, [Msg.yearNotFinished])
    ∧ apply_conditions c7Proc = .ok (c7Proc, [Msg.warnNotCollected])
    ∧ sic_mapping [] c7Proc = .ok (c7Proc, [Msg.warnNotCollected])
    ∧ show_data c7Proc = [Msg.warnNotCollected]
    ∧ get_data c7Proc = (none, [Msg.warnNotCollected]) := by
  have h := (claim7_guards c7Proc [] []).2 rfl rfl
  exact ⟨by decide, h.1, h.2.1, h.2.2.1, h.2.2.2⟩

/-- C8: on a collected processor, `apply_conditions` replaces the stored
rows by exactly those whose scale differs from `"8"`, an order-preserving
sublist in which every surviving row keeps its original field values. -/
theorem claim8_filter :
    ∀ (p : Processor) (rows : List Row),
      p._extracted = true → p.data = some rows →
      apply_conditions p =
        .ok ({ p with data := some (rows.filter (fun r => r.scale != "8")) }, [])
      ∧ (rows.filter (fun r => r.scale != "8")).Sublist rows
      ∧ (∀ r : Row, r ∈ rows.filter (fun r => r.scale != "8") ↔ (r ∈ rows ∧ ¬r.scale = "8")) := by
  intro p rows hext hdata
  refine ⟨?_, List.filter_sublist _, ?_⟩
  · rw [apply_conditions, hext, if_neg (by decide), hdata]
  · intro r
    simp [List.mem_filter]

/-- C8 witness: the scale-"8" row is removed, the scale-"3" row survives
unchanged and in place. -/
theorem claim8_witness :
    apply_conditions c8Proc = .ok (⟨"u", "85x", true, some [⟨"3", "0202", "02", 7, none⟩]⟩, []) := by
  have h := (claim8_filter c8Proc [⟨"8", "0101", "01", 5, none⟩, ⟨"3", "0202", "02", 7, none⟩]
    rfl rfl).1
  exact h.trans (by decide)

/-- C10: `output_CSV` on an uncollected processor prints the
not-yet-collected warning but, lacking an early return, still attempts the
export: it fails on `None` data and exports the stored rows otherwise —
unlike `show_data`, `apply_conditions` and `sic_mapping`, which stop at the
warning. -/
theorem claim10_no_early_return :
    ∀ p : Processor, p._extracted = false →
      (output_CSV p).1 = [Msg.warnNotCollected]
      ∧ (p.data = none → (output_CSV p).2 = .error PyErr.attributeError)
      ∧ (∀ rows, p.data = some rows → (output_CSV p).2 = .ok rows)
      ∧ show_data p = [Msg.warnNotCollected]
      ∧ apply_conditions p = .ok (p, [Msg.warnNotCollected])
      ∧ (∀ tb, sic_mapping tb p = .ok (p, [Msg.warnNotCollected])) := by
  intro p hext
  refine ⟨?_, ?_, ?_, ?_, ?_, ?_⟩
  · rw [output_CSV, if_pos hext]
  · intro hdata
    rw [output_CSV, hdata]
  · intro rows hdata
    rw [output_CSV, hdata]
  · rw [show_data, if_pos hext]
  · rw [apply_conditions, if_pos hext]
  · intro tb
    rw [sic_mapping, if_pos hext]

/-- C10 witness: with the flag false but rows stored, `output_CSV` prints
the warning AND exports the rows, while `show_data` stops at the warning. -/
theorem claim10_witness :
    (output_CSV c10Proc).1 = [Msg.warnNotCollected]
    ∧ (output_CSV c10Proc).2 = .ok [⟨"3", "0202", "02", 7, none⟩]
    ∧ show_data c10Proc = [Msg.warnNotCollected] := by
  have h := claim10_no_early_return c10Proc rfl
  exact ⟨h.1, h.2.2.1 _ rfl, h.2.2.2.1⟩
